import Mathlib

/-!
Shallow embedding of the PerculaCms AI Router subsystem
(`core/services/ai/router.py`, `pricing.py`, `gemini_provider.py`,
`core/services/base.py`, and the `AIProvider` / `AIModel` /
`AIJobsHistory` rows of `core/models.py`).

Conventions of the embedding:
- Python `Decimal` is modelled as `ℚ` (exact, non-binary-floating
  arithmetic; all values appearing in this subsystem are far below the
  28-significant-digit context bound, so `Decimal` arithmetic is exact
  on them).
- Python `None` is `Option.none`; Python string truthiness is made
  explicit via `pyTruthy`.
- Django querysets are modelled as Lean lists carrying the registry's
  stable ordering; `.filter` is `List.filter` and `.first()` is
  `List.head?`.
- A Python exception is a `PyExc` value: its class name and the string
  `str(exc)` returns.  Re-raising propagates the same value.
- The external vendor call is an oracle `adapter : BuiltProvider →
  List PyMsg → String → AdapterOutcome` supplied by the environment;
  the router is deterministic given the oracle, the wall-clock instant
  `now` (for `timezone.now()`) and the measured elapsed duration
  `elapsed_ms` (for the `time.monotonic()` difference).
-/

namespace PerculaCms

/-- A row of `core.models.AIProvider` (the fields the router reads). -/
structure AIProvider where
  name : String
  provider_type : String
  api_key : String
  organization_id : String
  is_active : Bool
deriving DecidableEq, Repr

/-- A row of `core.models.AIModel`, with its `select_related` provider
row embedded (the router always reads the pair). Prices are nullable
`Decimal` columns, modelled as `Option ℚ`. -/
structure AIModel where
  provider : AIProvider
  name : String
  model_id : String
  input_price_per_1m_tokens : Option ℚ
  output_price_per_1m_tokens : Option ℚ
  active : Bool
deriving DecidableEq, Repr

/-- `AIJobsHistory.Status` text choices. -/
inductive Status where
  | pending
  | completed
  | error
deriving DecidableEq, Repr

/-- A row of `core.models.AIJobsHistory` (the audit ledger). -/
structure JobRecord where
  agent : String
  user : Option String
  provider : Option AIProvider
  model : Option AIModel
  status : Status
  client_ip : Option String
  input_tokens : Option Nat
  output_tokens : Option Nat
  costs : Option ℚ
  timestamp : Nat
  duration_ms : Option Nat
  error_message : String
deriving DecidableEq, Repr

/-- A Python exception value: its class and `str(exc)`. -/
structure PyExc where
  cls : String
  msg : String
deriving DecidableEq, Repr

/-- `core.services.base.ServiceNotConfigured` with a given message. -/
def serviceNotConfigured (msg : String) : PyExc :=
  { cls := "ServiceNotConfigured", msg := msg }

/-- `core.services.ai.schemas.ProviderResponse`.  The opaque `raw`
payload is modelled as a string (never inspected by the router). -/
structure ProviderResponse where
  text : String
  raw : String
  input_tokens : Option Nat
  output_tokens : Option Nat
deriving DecidableEq, Repr

/-- `core.services.ai.schemas.AIResponse`. -/
structure AIResponse where
  text : String
  raw : String
  input_tokens : Option Nat
  output_tokens : Option Nat
  model : String
  provider : String
deriving DecidableEq, Repr

/-- The provider adapter object built by `AIRouter._build_provider`:
which registered class was instantiated and the constructor kwargs. -/
structure BuiltProvider where
  provider_type : String
  api_key : String
  organization_id : Option String
deriving DecidableEq, Repr

/-- Outcome of one external `provider.chat(...)` call: a normal return
or a raised exception. -/
inductive AdapterOutcome where
  | success (result : ProviderResponse)
  | failure (exc : PyExc)
deriving DecidableEq, Repr

/-- Python truthiness of an `Optional[str]`: `None` and `''` are falsy. -/
def pyTruthy : Option String → Bool
  | none => false
  | some s => !s.isEmpty

/-- `core.services.ai.pricing.calculate_cost`: `None` if any of the four
inputs is `None`, otherwise the exact decimal cost. -/
def calculate_cost : Option Nat → Option Nat → Option ℚ → Option ℚ → Option ℚ
  | some input_tokens, some output_tokens, some input_price_per_1m, some output_price_per_1m =>
      some ((input_tokens : ℚ) / 1000000 * input_price_per_1m
        + (output_tokens : ℚ) / 1000000 * output_price_per_1m)
  | _, _, _, _ => none

/-- The active queryset `AIModel.objects.filter(active=True,
provider__is_active=True)`, in the registry's stable ordering. -/
def activeQs (registry : List AIModel) : List AIModel :=
  registry.filter (fun m => m.active && m.provider.is_active)

/-- `AIProvider.ProviderType.OPENAI`. -/
def ProviderType.OPENAI : String := "OpenAI"

/-- `AIProvider.ProviderType.GEMINI`. -/
def ProviderType.GEMINI : String := "Gemini"

/-- `AIRouter._resolve_model`: pick an active `(AIModel, AIProvider)`
pair (the provider is embedded in the model row) from the optional
`model_id` / `provider_type` hints, or raise `ServiceNotConfigured`. -/
def resolveModel (registry : List AIModel)
    (model_id provider_type : Option String) : Except PyExc AIModel :=
  let qs := activeQs registry
  let ai_model : Option AIModel :=
    if pyTruthy provider_type && pyTruthy model_id then
      let pt := provider_type.getD ("")
      let mid := model_id.getD ("")
      match (qs.filter (fun m =>
          decide (m.provider.provider_type = pt) && decide (m.model_id = mid))).head? with
      | some m => some m
      | none => (qs.filter (fun m => decide (m.provider.provider_type = pt))).head?
    else if pyTruthy provider_type then
      (qs.filter (fun m =>
        decide (m.provider.provider_type = provider_type.getD ("")))).head?
    else
      let openai_qs := qs.filter (fun m =>
        decide (m.provider.provider_type = ProviderType.OPENAI))
      if !openai_qs.isEmpty then
        openai_qs.head?
      else
        let gemini_qs := qs.filter (fun m =>
          decide (m.provider.provider_type = ProviderType.GEMINI))
        if !gemini_qs.isEmpty then gemini_qs.head? else qs.head?
  match ai_model with
  | none => Except.error (serviceNotConfigured ("No active AI model configured."))
  | some m => Except.ok m

/-- The keys of the `_PROVIDER_CLASSES` registration table. -/
def PROVIDER_CLASSES_keys : List String := [ProviderType.OPENAI, ProviderType.GEMINI]

/-- `AIRouter._build_provider`: instantiate the adapter class registered
for the provider's `provider_type`, or raise `ServiceNotConfigured`. -/
def buildProvider (provider_record : AIProvider) : Except PyExc BuiltProvider :=
  if PROVIDER_CLASSES_keys.contains provider_record.provider_type then
    Except.ok
      { provider_type := provider_record.provider_type
        api_key := provider_record.api_key
        organization_id :=
          if provider_record.organization_id.isEmpty then none
          else some provider_record.organization_id }
  else
    Except.error (serviceNotConfigured
      ("No provider implementation for type \"" ++ provider_record.provider_type ++ "\"."))

/-- An OpenAI-style message dict; `.get` defaults are applied by
`msgRole` / `msgContent`. -/
structure PyMsg where
  role : Option String
  content : Option String
deriving DecidableEq, Repr

/-- `msg.get('role', 'user')`. -/
def msgRole (m : PyMsg) : String := m.role.getD ("user")

/-- `msg.get('content', '')`. -/
def msgContent (m : PyMsg) : String := m.content.getD ("")

/-- `AIRouter.chat`: resolve a model, build the adapter, open a Pending
`JobRecord`, invoke the adapter through the environment's `adapter`
oracle, and finalize the record to Completed or Error.  Returns the
Python result (normal `AIResponse` or raised exception) together with
the final ledger.  `ledger` is the `AIJobsHistory` table before the
call; `now` models `timezone.now()` and `elapsed_ms` the measured
`int((time.monotonic() - start) * 1000)`. -/
def AIRouter.chat (registry : List AIModel) (ledger : List JobRecord)
    (messages : List PyMsg) (model_id provider_type : Option String)
    (user client_ip : Option String) (agent : String)
    (now elapsed_ms : Nat)
    (adapter : BuiltProvider → List PyMsg → String → AdapterOutcome) :
    Except PyExc AIResponse × List JobRecord :=
  match resolveModel registry model_id provider_type with
  | Except.error exc => (Except.error exc, ledger)
  | Except.ok ai_model =>
    match buildProvider ai_model.provider with
    | Except.error exc => (Except.error exc, ledger)
    | Except.ok provider =>
      let job : JobRecord :=
        { agent := agent
          user := user
          provider := some ai_model.provider
          model := some ai_model
          status := Status.pending
          client_ip := client_ip
          input_tokens := none
          output_tokens := none
          costs := none
          timestamp := now
          duration_ms := none
          error_message := "" }
      match adapter provider messages ai_model.model_id with
      | AdapterOutcome.success result =>
        let cost := calculate_cost result.input_tokens result.output_tokens
          ai_model.input_price_per_1m_tokens ai_model.output_price_per_1m_tokens
        let job2 := { job with
          status := Status.completed
          input_tokens := result.input_tokens
          output_tokens := result.output_tokens
          costs := cost
          duration_ms := some elapsed_ms }
        (Except.ok
          { text := result.text
            raw := result.raw
            input_tokens := result.input_tokens
            output_tokens := result.output_tokens
            model := ai_model.model_id
            provider := ai_model.provider.provider_type },
         ledger ++ [job2])
      | AdapterOutcome.failure exc =>
        let job2 := { job with
          status := Status.error
          duration_ms := some elapsed_ms
          error_message := exc.msg }
        (Except.error exc, ledger ++ [job2])

/-- One entry of the Gemini `contents` list: the mapped role and the
single text part `{'parts': [{'text': content}]}`. -/
structure GeminiContent where
  role : String
  text : String
deriving DecidableEq, Repr

/-- The `_ROLE_MAP` dict lookup `.get(role, 'user')` of
`gemini_provider.py` (system messages never reach it: they are split
off beforehand). -/
def ROLE_MAP (role : String) : String :=
  if role = "user" then "user"
  else if role = "assistant" then "model"
  else if role = "system" then "user"
  else "user"

/-- The accumulation loop of `_convert_messages`: in input order,
system contents go to the first component, every other message is
mapped through `ROLE_MAP` into the second. -/
def splitMessages : List PyMsg → List String × List GeminiContent
  | [] => ([], [])
  | msg :: rest =>
    let tail := splitMessages rest
    if msgRole msg = "system" then
      (msgContent msg :: tail.1, tail.2)
    else
      (tail.1, { role := ROLE_MAP (msgRole msg), text := msgContent msg } :: tail.2)

/-- `gemini_provider._convert_messages`: split an OpenAI-style message
list into an optional system instruction and the Gemini contents. -/
def convert_messages (messages : List PyMsg) : Option String × List GeminiContent :=
  let parts := splitMessages messages
  (if parts.1.isEmpty then none else some (String.intercalate ("\n") parts.1), parts.2)

/-! ### Concrete fixtures used by witnesses and counterexamples -/

/-- An active OpenAI provider row. -/
def provOpenAI : AIProvider :=
  { name := "Main", provider_type := "OpenAI", api_key := "sk-test"
    organization_id := "", is_active := true }

/-- An active OpenAI model row with both unit prices configured. -/
def modelGpt : AIModel :=
  { provider := provOpenAI, name := "GPT-4o", model_id := "gpt-4o"
    input_price_per_1m_tokens := some 5, output_price_per_1m_tokens := some 15
    active := true }

/-- A second active OpenAI model row. -/
def modelGptMini : AIModel :=
  { provider := provOpenAI, name := "GPT-4o mini", model_id := "gpt-4o-mini"
    input_price_per_1m_tokens := some 1, output_price_per_1m_tokens := some 2
    active := true }

/-- An active provider row whose vendor type has no registered adapter
class (`Claude` is a valid `ProviderType` choice but absent from
`_PROVIDER_CLASSES`). -/
def provClaude : AIProvider :=
  { name := "Anthropic", provider_type := "Claude", api_key := "sk-ant"
    organization_id := "", is_active := true }

/-- An active model row under the adapterless Claude provider. -/
def modelClaude : AIModel :=
  { provider := provClaude, name := "Claude 3", model_id := "claude-3"
    input_price_per_1m_tokens := none, output_price_per_1m_tokens := none
    active := true }

/-- The adapter object `_build_provider` makes for `provOpenAI`. -/
def builtOpenAI : BuiltProvider :=
  { provider_type := "OpenAI", api_key := "sk-test", organization_id := none }

/-- A provider response that reports no input-token count (vendors
may omit usage metadata). -/
def respNoTokens : ProviderResponse :=
  { text := "Hello", raw := "", input_tokens := none, output_tokens := some 5 }

/-- The provider response of the spec's end-to-end scenario. -/
def respFull : ProviderResponse :=
  { text := "Hello, world!", raw := "", input_tokens := some 10, output_tokens := some 5 }

/-- An adapter oracle that always succeeds with `respNoTokens`. -/
def adSuccessNoTokens : BuiltProvider → List PyMsg → String → AdapterOutcome :=
  fun _ _ _ => AdapterOutcome.success respNoTokens

/-- An adapter oracle that always succeeds with `respFull`. -/
def adSuccessFull : BuiltProvider → List PyMsg → String → AdapterOutcome :=
  fun _ _ _ => AdapterOutcome.success respFull

/-- An adapter oracle that raises an exception whose `str` is empty
(e.g. `raise RuntimeError()`). -/
def adFailEmpty : BuiltProvider → List PyMsg → String → AdapterOutcome :=
  fun _ _ _ => AdapterOutcome.failure { cls := "RuntimeError", msg := "" }

/-- An adapter oracle that raises `RuntimeError('API error')`. -/
def adFailApi : BuiltProvider → List PyMsg → String → AdapterOutcome :=
  fun _ _ _ => AdapterOutcome.failure { cls := "RuntimeError", msg := "API error" }

/-! ### C4 — pricing -/

/-- C4: `calculate_cost` returns `None` iff at least one argument is
`None`; otherwise it returns exactly
`input_tokens/1_000_000 * input_price + output_tokens/1_000_000 * output_price`
in exact (rational) arithmetic, never substituting zero for a missing
value. -/
theorem c4_calculate_cost :
    (∀ (it ot : Option Nat) (ip op : Option ℚ),
      calculate_cost it ot ip op = none ↔
        it = none ∨ ot = none ∨ ip = none ∨ op = none) ∧
    (∀ (i o : Nat) (p q : ℚ),
      calculate_cost (some i) (some o) (some p) (some q)
        = some ((i : ℚ) / 1000000 * p + (o : ℚ) / 1000000 * q)) := by
  constructor
  · intro it ot ip op
    rcases it with _ | i <;> rcases ot with _ | o <;>
      rcases ip with _ | p <;> rcases op with _ | q <;>
        simp [calculate_cost]
  · intro i o p q
    rfl

/-- Evaluation of `c4_calculate_cost` on the spec's §8 end-to-end
numbers: 10 input tokens at 5 $/1M plus 5 output tokens at 15 $/1M
cost exactly 0.000125 $. -/
theorem c4_calculate_cost_witness :
    calculate_cost (some 10) (some 5) (some 5) (some 15) = some (1 / 8000 : ℚ) := by
  rw [c4_calculate_cost.2 10 5 5 15]
  norm_num

/-! ### C9 — Gemini message conversion -/

/-- Characterization of the `_convert_messages` loop: the system parts
are the in-order contents of the system-role messages, the contents are
the in-order non-system messages pushed through `ROLE_MAP`. -/
theorem splitMessages_eq (messages : List PyMsg) :
    splitMessages messages =
      ((messages.filter (fun m => decide (msgRole m = "system"))).map msgContent,
       (messages.filter (fun m => !decide (msgRole m = "system"))).map
         (fun m => { role := ROLE_MAP (msgRole m), text := msgContent m })) := by
  induction messages with
  | nil => rfl
  | cons m rest ih =>
    by_cases h : msgRole m = "system"
    · simp [splitMessages, h, ih, List.filter_cons]
    · simp [splitMessages, h, ih, List.filter_cons]

/-- C9: for every ordered message list (with the data model's roles
system/user/assistant), the Gemini conversion emits the non-system
messages in order through the rename table assistant → model,
user → user; the system instruction is absent exactly when no system
message is present, and otherwise is the in-order concatenation
(newline-separated) of all system contents. -/
theorem c9_gemini_convert (messages : List PyMsg)
    (hroles : ∀ m ∈ messages,
      msgRole m = "system" ∨ msgRole m = "user" ∨ msgRole m = "assistant") :
    (convert_messages messages).2 =
      (messages.filter (fun m => !decide (msgRole m = "system"))).map
        (fun m => { role := if msgRole m = "assistant" then "model" else "user"
                    text := msgContent m }) ∧
    ((convert_messages messages).1 = none ↔ ∀ m ∈ messages, msgRole m ≠ "system") ∧
    ((∃ m ∈ messages, msgRole m = "system") →
      (convert_messages messages).1 =
        some (String.intercalate ("\n")
          ((messages.filter (fun m => decide (msgRole m = "system"))).map msgContent))) := by
  refine ⟨?_, ?_, ?_⟩
  · rw [show (convert_messages messages).2 = (splitMessages messages).2 from rfl,
      splitMessages_eq]
    refine List.map_congr_left ?_
    intro m hm
    have hm2 := List.mem_filter.mp hm
    rcases hroles m hm2.1 with h | h | h
    · simp [h] at hm2
    · simp [ROLE_MAP, h]
    · simp [ROLE_MAP, h]
  · rw [show (convert_messages messages).1
        = (if (splitMessages messages).1.isEmpty then none
           else some (String.intercalate ("\n") (splitMessages messages).1)) from rfl,
      splitMessages_eq]
    constructor
    · intro h
      by_cases hemp : ((messages.filter (fun m => decide (msgRole m = "system"))).map msgContent).isEmpty
      · intro m hm hsys
        have : messages.filter (fun m => decide (msgRole m = "system")) = [] := by
          simpa [List.isEmpty_iff] using hemp
        have := List.filter_eq_nil_iff.mp this m hm
        simp [hsys] at this
      · simp [hemp] at h
    · intro h
      have : messages.filter (fun m => decide (msgRole m = "system")) = [] :=
        List.filter_eq_nil_iff.mpr (fun m hm => by simp [h m hm])
      simp [this]
  · rintro ⟨m, hm, hsys⟩
    rw [show (convert_messages messages).1
        = (if (splitMessages messages).1.isEmpty then none
           else some (String.intercalate ("\n") (splitMessages messages).1)) from rfl,
      splitMessages_eq]
    have hmem : m ∈ messages.filter (fun m => decide (msgRole m = "system")) :=
      List.mem_filter.mpr ⟨hm, by simp [hsys]⟩
    have hne : messages.filter (fun m => decide (msgRole m = "system")) ≠ [] := by
      intro hnil
      rw [hnil] at hmem
      exact List.not_mem_nil m hmem
    have : ¬((messages.filter (fun m => decide (msgRole m = "system"))).map msgContent).isEmpty := by
      simp [List.isEmpty_iff, hne]
    simp [this]

/-- A concrete conversation: two system messages interleaved with a
user and an assistant turn. -/
def c9msgs : List PyMsg :=
  [ { role := some "system", content := some "You are helpful" },
    { role := some "user", content := some "Hi" },
    { role := some "assistant", content := some "Hello" },
    { role := some "system", content := some "Be brief" } ]

/-- Evaluation of `c9_gemini_convert` on `c9msgs`. -/
theorem c9_gemini_convert_witness :
    (∀ m ∈ c9msgs,
      msgRole m = "system" ∨ msgRole m = "user" ∨ msgRole m = "assistant") ∧
    ((convert_messages c9msgs).2 =
      (c9msgs.filter (fun m => !decide (msgRole m = "system"))).map
        (fun m => { role := if msgRole m = "assistant" then "model" else "user"
                    text := msgContent m }) ∧
    ((convert_messages c9msgs).1 = none ↔ ∀ m ∈ c9msgs, msgRole m ≠ "system") ∧
    ((∃ m ∈ c9msgs, msgRole m = "system") →
      (convert_messages c9msgs).1 =
        some (String.intercalate ("\n")
          ((c9msgs.filter (fun m => decide (msgRole m = "system"))).map msgContent)))) :=
  ⟨by decide, c9_gemini_convert c9msgs (by decide)⟩

/-! ### Resolver lemmas and claims C5, C6, C7 -/

/-- A non-empty optional string is truthy. -/
theorem pyTruthy_some {s : String} (h : s ≠ "") : pyTruthy (some s) = true := by
  have : s.isEmpty = false := by
    rcases hb : s.isEmpty with _ | _
    · rfl
    · exact absurd ((String.isEmpty_iff s).mp hb) h
  simp [pyTruthy, this]

/-- Reduction of `resolveModel` when both hints are (truthily) given:
head of the exact-match filter, else head of the vendor filter, else
`ServiceNotConfigured`. -/
theorem resolveModel_both (registry : List AIModel) (mid pt : String)
    (hpt : pt ≠ "") (hmid : mid ≠ "") :
    resolveModel registry (some mid) (some pt) =
      match ((activeQs registry).filter (fun m =>
          decide (m.provider.provider_type = pt) && decide (m.model_id = mid))).head? with
      | some m => Except.ok m
      | none =>
        match ((activeQs registry).filter (fun m =>
            decide (m.provider.provider_type = pt))).head? with
        | some m => Except.ok m
        | none => Except.error (serviceNotConfigured ("No active AI model configured.")) := by
  unfold resolveModel
  rw [pyTruthy_some hpt, pyTruthy_some hmid]
  simp only [Bool.and_self, if_true, Option.getD_some]
  cases h1 : ((activeQs registry).filter (fun m =>
      decide (m.provider.provider_type = pt) && decide (m.model_id = mid))).head? with
  | some m => simp [h1]
  | none =>
    simp only [h1]
    cases h2 : ((activeQs registry).filter (fun m =>
        decide (m.provider.provider_type = pt))).head? with
    | some m => simp [h2]
    | none => simp [h2]

/-- C5: with both hints given, when an active model with that exact
`model_id` exists under an active provider of that `provider_type`
(uniquely, so "that model" is well defined), resolution returns exactly
it — even if other active models of the same vendor exist. -/
theorem c5_exact_match (registry : List AIModel) (pt mid : String) (m : AIModel)
    (hpt : pt ≠ "") (hmid : mid ≠ "")
    (hmem : m ∈ activeQs registry)
    (hm_pt : m.provider.provider_type = pt) (hm_id : m.model_id = mid)
    (huniq : ∀ m2 ∈ activeQs registry,
      m2.provider.provider_type = pt → m2.model_id = mid → m2 = m) :
    resolveModel registry (some mid) (some pt) = Except.ok m := by
  rw [resolveModel_both registry mid pt hpt hmid]
  have hmemf : m ∈ (activeQs registry).filter (fun m =>
      decide (m.provider.provider_type = pt) && decide (m.model_id = mid)) :=
    List.mem_filter.mpr ⟨hmem, by simp [hm_pt, hm_id]⟩
  have hne : (activeQs registry).filter (fun m =>
      decide (m.provider.provider_type = pt) && decide (m.model_id = mid)) ≠ [] := by
    intro hnil
    rw [hnil] at hmemf
    exact List.not_mem_nil m hmemf
  cases h1 : ((activeQs registry).filter (fun m =>
      decide (m.provider.provider_type = pt) && decide (m.model_id = mid))).head? with
  | none => exact absurd (List.head?_eq_none_iff.mp h1) hne
  | some y =>
    have hy : y ∈ (activeQs registry).filter (fun m =>
        decide (m.provider.provider_type = pt) && decide (m.model_id = mid)) :=
      List.mem_of_mem_head? h1
    have hy2 := List.mem_filter.mp hy
    have hy3 : y.provider.provider_type = pt ∧ y.model_id = mid := by
      have := hy2.2
      simp at this
      exact this
    have : y = m := huniq y hy2.1 hy3.1 hy3.2
    simp [this]

/-- Evaluation of `c5_exact_match`: the registry lists `gpt-4o-mini`
before `gpt-4o`, yet asking for `(OpenAI, gpt-4o)` returns `gpt-4o`. -/
theorem c5_exact_match_witness :
    ("OpenAI" ≠ "" ∧ "gpt-4o" ≠ "" ∧
     modelGpt ∈ activeQs [modelGptMini, modelGpt] ∧
     modelGpt.provider.provider_type = "OpenAI" ∧ modelGpt.model_id = "gpt-4o" ∧
     (∀ m2 ∈ activeQs [modelGptMini, modelGpt],
       m2.provider.provider_type = "OpenAI" → m2.model_id = "gpt-4o" → m2 = modelGpt)) ∧
    resolveModel [modelGptMini, modelGpt] (some ("gpt-4o")) (some ("OpenAI"))
      = Except.ok modelGpt :=
  ⟨⟨by decide, by decide, by decide, by decide, by decide, by decide⟩,
   c5_exact_match [modelGptMini, modelGpt] ("OpenAI") ("gpt-4o") modelGpt
     (by decide) (by decide) (by decide) (by decide) (by decide) (by decide)⟩

/-- C6: with both hints given, when no active model matches the exact
pair but some active model of the hinted vendor exists under an active
provider, resolution falls back to such a model — one that is itself
active under an active provider and of the hinted vendor — instead of
raising. -/
theorem c6_degraded_fallback (registry : List AIModel) (pt mid : String)
    (hpt : pt ≠ "") (hmid : mid ≠ "")
    (hnoexact : ∀ m ∈ activeQs registry,
      ¬(m.provider.provider_type = pt ∧ m.model_id = mid))
    (m0 : AIModel) (hmem : m0 ∈ activeQs registry)
    (hm0 : m0.provider.provider_type = pt) :
    ∃ m, resolveModel registry (some mid) (some pt) = Except.ok m ∧
      m ∈ activeQs registry ∧ m.provider.provider_type = pt := by
  rw [resolveModel_both registry mid pt hpt hmid]
  have hnil : (activeQs registry).filter (fun m =>
      decide (m.provider.provider_type = pt) && decide (m.model_id = mid)) = [] := by
    refine List.filter_eq_nil_iff.mpr ?_
    intro m hm
    have := hnoexact m hm
    simp only [Bool.and_eq_true, decide_eq_true_eq]
    tauto
  rw [hnil]
  have hmemf : m0 ∈ (activeQs registry).filter (fun m =>
      decide (m.provider.provider_type = pt)) :=
    List.mem_filter.mpr ⟨hmem, by simp [hm0]⟩
  have hne : (activeQs registry).filter (fun m =>
      decide (m.provider.provider_type = pt)) ≠ [] := by
    intro hnil2
    rw [hnil2] at hmemf
    exact List.not_mem_nil m0 hmemf
  cases h2 : ((activeQs registry).filter (fun m =>
      decide (m.provider.provider_type = pt))).head? with
  | none => exact absurd (List.head?_eq_none_iff.mp h2) hne
  | some y =>
    have hy : y ∈ (activeQs registry).filter (fun m =>
        decide (m.provider.provider_type = pt)) :=
      List.mem_of_mem_head? h2
    have hy2 := List.mem_filter.mp hy
    refine ⟨y, rfl, hy2.1, ?_⟩
    have := hy2.2
    simpa using this

/-- Evaluation of `c6_degraded_fallback`: asking for the nonexistent
`(OpenAI, nonexistent-model)` with `gpt-4o` active falls back. -/
theorem c6_degraded_fallback_witness :
    ("OpenAI" ≠ "" ∧ "nonexistent-model" ≠ "" ∧
     (∀ m ∈ activeQs [modelGpt],
       ¬(m.provider.provider_type = "OpenAI" ∧ m.model_id = "nonexistent-model")) ∧
     modelGpt ∈ activeQs [modelGpt] ∧
     modelGpt.provider.provider_type = "OpenAI") ∧
    (∃ m, resolveModel [modelGpt] (some ("nonexistent-model")) (some ("OpenAI"))
        = Except.ok m ∧ m ∈ activeQs [modelGpt] ∧
        m.provider.provider_type = "OpenAI") :=
  ⟨⟨by decide, by decide, by decide, by decide, by decide⟩,
   c6_degraded_fallback [modelGpt] ("OpenAI") ("nonexistent-model")
     (by decide) (by decide) (by decide) modelGpt (by decide) (by decide)⟩

/-- The no-hints resolution policy as the spec words it (§4.3 rule 3 /
§8): first active model of the default-primary vendor (OpenAI), else of
the default-secondary vendor (Gemini), else the first of the remaining
active models; `NoActiveModelConfigured` exactly when no model under an
active provider is active. -/
def resolvePolicyNoHints (registry : List AIModel) : Except PyExc AIModel :=
  let act := registry.filter (fun m => m.active && m.provider.is_active)
  match (act.filter (fun m => decide (m.provider.provider_type = ProviderType.OPENAI))).head? with
  | some m => Except.ok m
  | none =>
    match (act.filter (fun m => decide (m.provider.provider_type = ProviderType.GEMINI))).head? with
    | some m => Except.ok m
    | none =>
      match (act.filter (fun m =>
          !decide (m.provider.provider_type = ProviderType.OPENAI)
          && !decide (m.provider.provider_type = ProviderType.GEMINI))).head? with
      | some m => Except.ok m
      | none => Except.error (serviceNotConfigured ("No active AI model configured."))

/-- C7: with no hints, `_resolve_model` implements exactly the spec's
priority policy (first active OpenAI model in the stable ordering, else
first active Gemini model, else first remaining active model), and it
raises iff no model under an active provider is active at all. -/
theorem c7_default_policy (registry : List AIModel) :
    resolveModel registry none none = resolvePolicyNoHints registry ∧
    ((∃ e, resolveModel registry none none = Except.error e) ↔ activeQs registry = []) := by
  have hact : registry.filter (fun m => m.active && m.provider.is_active) = activeQs registry := rfl
  have hmain : resolveModel registry none none = resolvePolicyNoHints registry := by
    unfold resolveModel resolvePolicyNoHints
    rw [hact]
    simp only [pyTruthy, Bool.and_self, Bool.false_and, if_false, Bool.not_false]
    cases h1 : ((activeQs registry).filter (fun m =>
        decide (m.provider.provider_type = ProviderType.OPENAI))).head? with
    | some m =>
      have hne : (activeQs registry).filter (fun m =>
          decide (m.provider.provider_type = ProviderType.OPENAI)) ≠ [] := by
        intro hnil
        rw [hnil] at h1
        exact Option.noConfusion h1
      have hempty : ((activeQs registry).filter (fun m =>
          decide (m.provider.provider_type = ProviderType.OPENAI))).isEmpty = false :=
        List.isEmpty_eq_false.mpr hne
      simp [hempty, h1]
    | none =>
      have hnil1 : (activeQs registry).filter (fun m =>
          decide (m.provider.provider_type = ProviderType.OPENAI)) = [] :=
        List.head?_eq_none_iff.mp h1
      cases h2 : ((activeQs registry).filter (fun m =>
          decide (m.provider.provider_type = ProviderType.GEMINI))).head? with
      | some m =>
        have hne : (activeQs registry).filter (fun m =>
            decide (m.provider.provider_type = ProviderType.GEMINI)) ≠ [] := by
          intro hnil
          rw [hnil] at h2
          exact Option.noConfusion h2
        have hempty : ((activeQs registry).filter (fun m =>
            decide (m.provider.provider_type = ProviderType.GEMINI))).isEmpty = false :=
          List.isEmpty_eq_false.mpr hne
        simp [hnil1, hempty, h1, h2]
      | none =>
        have hnil2 : (activeQs registry).filter (fun m =>
            decide (m.provider.provider_type = ProviderType.GEMINI)) = [] :=
          List.head?_eq_none_iff.mp h2
        have hrem : (activeQs registry).filter (fun m =>
            !decide (m.provider.provider_type = ProviderType.OPENAI)
            && !decide (m.provider.provider_type = ProviderType.GEMINI)) = activeQs registry := by
          refine List.filter_eq_self.mpr ?_
          intro m hm
          have hno : ¬(m.provider.provider_type = ProviderType.OPENAI) := by
            intro hc
            have : m ∈ (activeQs registry).filter (fun m =>
                decide (m.provider.provider_type = ProviderType.OPENAI)) :=
              List.mem_filter.mpr ⟨hm, by simp [hc]⟩
            rw [hnil1] at this
            exact List.not_mem_nil m this
          have hng : ¬(m.provider.provider_type = ProviderType.GEMINI) := by
            intro hc
            have : m ∈ (activeQs registry).filter (fun m =>
                decide (m.provider.provider_type = ProviderType.GEMINI)) :=
              List.mem_filter.mpr ⟨hm, by simp [hc]⟩
            rw [hnil2] at this
            exact List.not_mem_nil m this
          simp [hno, hng]
        simp [hnil1, hnil2, hrem, h1, h2]
        cases (activeQs registry).head? <;> rfl
  refine ⟨hmain, ?_⟩
  rw [hmain]
  unfold resolvePolicyNoHints
  rw [hact]
  constructor
  · rintro ⟨e, he⟩
    by_contra hne
    cases h1 : ((activeQs registry).filter (fun m =>
        decide (m.provider.provider_type = ProviderType.OPENAI))).head? with
    | some m => simp [h1] at he
    | none =>
      cases h2 : ((activeQs registry).filter (fun m =>
          decide (m.provider.provider_type = ProviderType.GEMINI))).head? with
      | some m => simp [h1, h2] at he
      | none =>
        have hnil1 := List.head?_eq_none_iff.mp h1
        have hnil2 := List.head?_eq_none_iff.mp h2
        have hrem : (activeQs registry).filter (fun m =>
            !decide (m.provider.provider_type = ProviderType.OPENAI)
            && !decide (m.provider.provider_type = ProviderType.GEMINI)) = activeQs registry := by
          refine List.filter_eq_self.mpr ?_
          intro m hm
          have hno : ¬(m.provider.provider_type = ProviderType.OPENAI) := by
            intro hc
            have : m ∈ (activeQs registry).filter (fun m =>
                decide (m.provider.provider_type = ProviderType.OPENAI)) :=
              List.mem_filter.mpr ⟨hm, by simp [hc]⟩
            rw [hnil1] at this
            exact List.not_mem_nil m this
          have hng : ¬(m.provider.provider_type = ProviderType.GEMINI) := by
            intro hc
            have : m ∈ (activeQs registry).filter (fun m =>
                decide (m.provider.provider_type = ProviderType.GEMINI)) :=
              List.mem_filter.mpr ⟨hm, by simp [hc]⟩
            rw [hnil2] at this
            exact List.not_mem_nil m this
          simp [hno, hng]
        cases h3 : (activeQs registry).head? with
        | some m => simp [h1, h2, hrem, h3] at he
        | none => exact hne (List.head?_eq_none_iff.mp h3)
  · intro hempty
    refine ⟨serviceNotConfigured ("No active AI model configured."), ?_⟩
    simp [hempty]

/-- Evaluation of `c7_default_policy` on a registry whose only active
model is neither OpenAI nor Gemini. -/
theorem c7_default_policy_witness :
    resolveModel [modelClaude] none none = resolvePolicyNoHints [modelClaude] ∧
    ((∃ e, resolveModel [modelClaude] none none = Except.error e) ↔
      activeQs [modelClaude] = []) :=
  c7_default_policy [modelClaude]

/-! ### Router claims C1, C2, C3, C8, C10 -/

/-- C1 (amended): when a model resolves, an adapter is built and the
adapter call returns successfully, exactly one JobRecord is appended
and ends Completed; `duration_ms` is non-null, `input_tokens` /
`output_tokens` equal the adapter response's (possibly null) counts,
`costs` is the pricing result, and all four are non-null whenever the
adapter reports both token counts and the resolved model has both unit
prices; the response carries the resolved vendor type and model id. -/
theorem c1_success_audit (registry : List AIModel) (ledger : List JobRecord)
    (messages : List PyMsg) (model_id provider_type user client_ip : Option String)
    (agent : String) (now elapsed_ms : Nat)
    (adapter : BuiltProvider → List PyMsg → String → AdapterOutcome)
    (m : AIModel) (prov : BuiltProvider) (r : ProviderResponse)
    (hres : resolveModel registry model_id provider_type = Except.ok m)
    (hbuild : buildProvider m.provider = Except.ok prov)
    (hcall : adapter prov messages m.model_id = AdapterOutcome.success r) :
    ∃ job,
      AIRouter.chat registry ledger messages model_id provider_type user client_ip
          agent now elapsed_ms adapter
        = (Except.ok
            { text := r.text, raw := r.raw, input_tokens := r.input_tokens
              output_tokens := r.output_tokens, model := m.model_id
              provider := m.provider.provider_type }, ledger ++ [job]) ∧
      job.status = Status.completed ∧
      job.duration_ms = some elapsed_ms ∧
      job.input_tokens = r.input_tokens ∧
      job.output_tokens = r.output_tokens ∧
      job.costs = calculate_cost r.input_tokens r.output_tokens
        m.input_price_per_1m_tokens m.output_price_per_1m_tokens ∧
      (r.input_tokens ≠ none → r.output_tokens ≠ none →
        m.input_price_per_1m_tokens ≠ none → m.output_price_per_1m_tokens ≠ none →
        job.input_tokens ≠ none ∧ job.output_tokens ≠ none ∧
        job.costs ≠ none ∧ job.duration_ms ≠ none) := by
  unfold AIRouter.chat
  rw [hres]
  simp only []
  rw [hbuild]
  simp only []
  rw [hcall]
  refine ⟨_, rfl, rfl, rfl, rfl, rfl, rfl, ?_⟩
  intro h1 h2 h3 h4
  rcases hri : r.input_tokens with _ | i
  · exact absurd hri h1
  rcases hro : r.output_tokens with _ | o
  · exact absurd hro h2
  rcases hpi : m.input_price_per_1m_tokens with _ | p
  · exact absurd hpi h3
  rcases hpo : m.output_price_per_1m_tokens with _ | q
  · exact absurd hpo h4
  refine ⟨by simp [hri], by simp [hro], ?_, by simp⟩
  simp [hri, hro, hpi, hpo, calculate_cost]

/-- C1 (counterexample to the claim as stated): a successful adapter
call that reports no input-token count yields a Completed JobRecord
whose `input_tokens` and `costs` are null — the claim's "all non-null"
fails. -/
theorem c1_counterexample :
    ∃ resp job,
      AIRouter.chat [modelGpt] [] [] none none none none ("core.ai") 0 7 adSuccessNoTokens
        = (Except.ok resp, [job]) ∧
      job.status = Status.completed ∧ job.input_tokens = none ∧ job.costs = none := by
  refine ⟨_, _, rfl, rfl, rfl, rfl⟩

/-- Evaluation of `c1_success_audit` on the spec's §8 end-to-end
scenario data. -/
theorem c1_success_audit_witness :
    (resolveModel [modelGpt] none none = Except.ok modelGpt ∧
     buildProvider modelGpt.provider = Except.ok builtOpenAI ∧
     adSuccessFull builtOpenAI [] modelGpt.model_id = AdapterOutcome.success respFull) ∧
    (∃ job,
      AIRouter.chat [modelGpt] [] [] none none none none ("core.ai") 0 3 adSuccessFull
        = (Except.ok
            { text := respFull.text, raw := respFull.raw, input_tokens := respFull.input_tokens
              output_tokens := respFull.output_tokens, model := modelGpt.model_id
              provider := modelGpt.provider.provider_type }, [] ++ [job]) ∧
      job.status = Status.completed ∧
      job.duration_ms = some 3 ∧
      job.input_tokens = respFull.input_tokens ∧
      job.output_tokens = respFull.output_tokens ∧
      job.costs = calculate_cost respFull.input_tokens respFull.output_tokens
        modelGpt.input_price_per_1m_tokens modelGpt.output_price_per_1m_tokens ∧
      (respFull.input_tokens ≠ none → respFull.output_tokens ≠ none →
        modelGpt.input_price_per_1m_tokens ≠ none →
        modelGpt.output_price_per_1m_tokens ≠ none →
        job.input_tokens ≠ none ∧ job.output_tokens ≠ none ∧
        job.costs ≠ none ∧ job.duration_ms ≠ none)) :=
  ⟨⟨rfl, rfl, rfl⟩,
   c1_success_audit [modelGpt] [] [] none none none none ("core.ai") 0 3 adSuccessFull
     modelGpt builtOpenAI respFull rfl rfl rfl⟩

/-- C2 (amended): when the adapter raises, exactly one JobRecord is
appended, ending in Error; its `error_message` equals `str(exc)` (hence
non-empty whenever `str(exc)` is), and the original exception value
propagates to the caller unchanged. -/
theorem c2_error_audit (registry : List AIModel) (ledger : List JobRecord)
    (messages : List PyMsg) (model_id provider_type user client_ip : Option String)
    (agent : String) (now elapsed_ms : Nat)
    (adapter : BuiltProvider → List PyMsg → String → AdapterOutcome)
    (m : AIModel) (prov : BuiltProvider) (exc : PyExc)
    (hres : resolveModel registry model_id provider_type = Except.ok m)
    (hbuild : buildProvider m.provider = Except.ok prov)
    (hcall : adapter prov messages m.model_id = AdapterOutcome.failure exc) :
    ∃ job,
      AIRouter.chat registry ledger messages model_id provider_type user client_ip
          agent now elapsed_ms adapter
        = (Except.error exc, ledger ++ [job]) ∧
      job.status = Status.error ∧
      job.error_message = exc.msg ∧
      (exc.msg ≠ "" → job.error_message ≠ "") := by
  unfold AIRouter.chat
  rw [hres]
  simp only []
  rw [hbuild]
  simp only []
  rw [hcall]
  exact ⟨_, rfl, rfl, rfl, fun h => h⟩

/-- C2 (counterexample to the claim as stated): an adapter exception
whose `str` is empty (e.g. `raise RuntimeError()`) produces an Error
JobRecord whose `error_message` is empty — the claim's "non-empty
error_text" fails (the equality with `str(exc)` does hold). -/
theorem c2_counterexample :
    ∃ job,
      AIRouter.chat [modelGpt] [] [] none none none none ("core.ai") 0 7 adFailEmpty
        = (Except.error { cls := "RuntimeError", msg := "" }, [job]) ∧
      job.status = Status.error ∧ job.error_message = "" := by
  refine ⟨_, rfl, rfl, rfl⟩

/-- Evaluation of `c2_error_audit` on `RuntimeError('API error')`. -/
theorem c2_error_audit_witness :
    (resolveModel [modelGpt] none none = Except.ok modelGpt ∧
     buildProvider modelGpt.provider = Except.ok builtOpenAI ∧
     adFailApi builtOpenAI [] modelGpt.model_id
       = AdapterOutcome.failure { cls := "RuntimeError", msg := "API error" }) ∧
    (∃ job,
      AIRouter.chat [modelGpt] [] [] none none none none ("core.ai") 0 3 adFailApi
        = (Except.error { cls := "RuntimeError", msg := "API error" }, [] ++ [job]) ∧
      job.status = Status.error ∧
      job.error_message = PyExc.msg { cls := "RuntimeError", msg := "API error" } ∧
      (PyExc.msg { cls := "RuntimeError", msg := "API error" } ≠ "" →
        job.error_message ≠ "")) :=
  ⟨⟨rfl, rfl, rfl⟩,
   c2_error_audit [modelGpt] [] [] none none none none ("core.ai") 0 3 adFailApi
     modelGpt builtOpenAI { cls := "RuntimeError", msg := "API error" } rfl rfl rfl⟩

/-- C3: when resolution fails, or resolution succeeds but no adapter
class is registered for the vendor, the configuration error is raised
with the ledger completely unchanged, and the outcome does not depend
on the adapter oracle at all (no adapter call is made). -/
theorem c3_config_error_no_record (registry : List AIModel) (ledger : List JobRecord)
    (messages : List PyMsg) (model_id provider_type user client_ip : Option String)
    (agent : String) (now elapsed_ms : Nat)
    (adapter adapter2 : BuiltProvider → List PyMsg → String → AdapterOutcome)
    (h : (∃ e, resolveModel registry model_id provider_type = Except.error e) ∨
         (∃ m e, resolveModel registry model_id provider_type = Except.ok m ∧
                 buildProvider m.provider = Except.error e)) :
    (∃ e, AIRouter.chat registry ledger messages model_id provider_type user client_ip
        agent now elapsed_ms adapter = (Except.error e, ledger)) ∧
    AIRouter.chat registry ledger messages model_id provider_type user client_ip
        agent now elapsed_ms adapter
      = AIRouter.chat registry ledger messages model_id provider_type user client_ip
        agent now elapsed_ms adapter2 := by
  rcases h with ⟨e, he⟩ | ⟨m, e, hm, he⟩
  · constructor
    · refine ⟨e, ?_⟩
      unfold AIRouter.chat
      rw [he]
    · unfold AIRouter.chat
      rw [he]
  · constructor
    · refine ⟨e, ?_⟩
      unfold AIRouter.chat
      rw [hm]
      simp only []
      rw [he]
    · unfold AIRouter.chat
      rw [hm]
      simp only []
      rw [he]

/-- Evaluation of `c3_config_error_no_record` on an empty registry:
the ledger stays empty and two different adapter oracles give the same
result. -/
theorem c3_config_error_no_record_witness :
    ((∃ e, resolveModel ([] : List AIModel) none none = Except.error e) ∨
     (∃ m e, resolveModel ([] : List AIModel) none none = Except.ok m ∧
             buildProvider m.provider = Except.error e)) ∧
    ((∃ e, AIRouter.chat [] [] [] none none none none ("core.ai") 0 3 adSuccessFull
        = (Except.error e, [])) ∧
     AIRouter.chat [] [] [] none none none none ("core.ai") 0 3 adSuccessFull
       = AIRouter.chat [] [] [] none none none none ("core.ai") 0 3 adFailApi) :=
  ⟨Or.inl ⟨serviceNotConfigured ("No active AI model configured."), rfl⟩,
   c3_config_error_no_record [] [] [] none none none none ("core.ai") 0 3
     adSuccessFull adFailApi
     (Or.inl ⟨serviceNotConfigured ("No active AI model configured."), rfl⟩)⟩

/-- C8 (amended): when a model resolves but its vendor type has no
registered adapter, the Router fails before touching the ledger with a
`ServiceNotConfigured` error — the same exception class as the no-model
failure, distinguishable from it only by its message, which always
differs from `'No active AI model configured.'`. -/
theorem c8_unsupported_vendor (registry : List AIModel) (ledger : List JobRecord)
    (messages : List PyMsg) (model_id provider_type user client_ip : Option String)
    (agent : String) (now elapsed_ms : Nat)
    (adapter : BuiltProvider → List PyMsg → String → AdapterOutcome)
    (m : AIModel)
    (hres : resolveModel registry model_id provider_type = Except.ok m)
    (hv1 : m.provider.provider_type ≠ "OpenAI")
    (hv2 : m.provider.provider_type ≠ "Gemini") :
    AIRouter.chat registry ledger messages model_id provider_type user client_ip
        agent now elapsed_ms adapter
      = (Except.error (serviceNotConfigured
          ("No provider implementation for type \"" ++ m.provider.provider_type ++ "\".")), ledger) ∧
    (serviceNotConfigured
        ("No provider implementation for type \"" ++ m.provider.provider_type ++ "\".")).cls
      = (serviceNotConfigured ("No active AI model configured.")).cls ∧
    (serviceNotConfigured
        ("No provider implementation for type \"" ++ m.provider.provider_type ++ "\".")).msg
      ≠ (serviceNotConfigured ("No active AI model configured.")).msg := by
  have hbuild : buildProvider m.provider = Except.error (serviceNotConfigured
      ("No provider implementation for type \"" ++ m.provider.provider_type ++ "\".")) := by
    have hnotmem : m.provider.provider_type ∉ PROVIDER_CLASSES_keys := by
      simp [PROVIDER_CLASSES_keys, ProviderType.OPENAI, ProviderType.GEMINI, hv1, hv2]
    have hcontains : PROVIDER_CLASSES_keys.contains m.provider.provider_type = false := by
      rcases hb : PROVIDER_CLASSES_keys.contains m.provider.provider_type with _ | _
      · rfl
      · exact absurd (List.elem_iff.mp hb) hnotmem
    unfold buildProvider
    rw [hcontains]
    simp
  refine ⟨?_, rfl, ?_⟩
  · unfold AIRouter.chat
    rw [hres]
    simp only []
    rw [hbuild]
  · intro hmsg
    have hlen := congrArg String.length hmsg
    simp only [serviceNotConfigured] at hlen
    rw [String.length_append, String.length_append] at hlen
    have h1 : ("No provider implementation for type \"").length = 37 := rfl
    have h2 : ("\".").length = 2 := rfl
    have h3 : ("No active AI model configured.").length = 30 := rfl
    rw [h1, h2, h3] at hlen
    omega

/-- C8 (counterexample to the claim as stated): the unsupported-vendor
failure and the no-active-model failure carry the same exception class
(`ServiceNotConfigured`), so the caller cannot distinguish them as
different error kinds. -/
theorem c8_counterexample :
    ∃ e1 e2,
      AIRouter.chat [modelClaude] [] [] none none none none ("core.ai") 0 7 adFailApi
        = (Except.error e1, []) ∧
      AIRouter.chat [] [] [] none none none none ("core.ai") 0 7 adFailApi
        = (Except.error e2, []) ∧
      e1.cls = e2.cls := by
  refine ⟨_, _, rfl, rfl, rfl⟩

/-- Evaluation of `c8_unsupported_vendor` on the adapterless Claude
configuration. -/
theorem c8_unsupported_vendor_witness :
    (resolveModel [modelClaude] none none = Except.ok modelClaude ∧
     modelClaude.provider.provider_type ≠ "OpenAI" ∧
     modelClaude.provider.provider_type ≠ "Gemini") ∧
    (AIRouter.chat [modelClaude] [] [] none none none none ("core.ai") 0 3 adSuccessFull
        = (Except.error (serviceNotConfigured
            ("No provider implementation for type \"" ++ modelClaude.provider.provider_type ++ "\".")), []) ∧
     (serviceNotConfigured
        ("No provider implementation for type \"" ++ modelClaude.provider.provider_type ++ "\".")).cls
       = (serviceNotConfigured ("No active AI model configured.")).cls ∧
     (serviceNotConfigured
        ("No provider implementation for type \"" ++ modelClaude.provider.provider_type ++ "\".")).msg
       ≠ (serviceNotConfigured ("No active AI model configured.")).msg) :=
  ⟨⟨rfl, by decide, by decide⟩,
   c8_unsupported_vendor [modelClaude] [] [] none none none none ("core.ai") 0 3
     adSuccessFull modelClaude rfl (by decide) (by decide)⟩

/-- C10: the failure transition writes only `status`, `duration_ms` and
`error_message`; the token, cost and creation-time fields of the single
appended JobRecord keep their values from creation. -/
theorem c10_error_frame (registry : List AIModel) (ledger : List JobRecord)
    (messages : List PyMsg) (model_id provider_type user client_ip : Option String)
    (agent : String) (now elapsed_ms : Nat)
    (adapter : BuiltProvider → List PyMsg → String → AdapterOutcome)
    (m : AIModel) (prov : BuiltProvider) (exc : PyExc)
    (hres : resolveModel registry model_id provider_type = Except.ok m)
    (hbuild : buildProvider m.provider = Except.ok prov)
    (hcall : adapter prov messages m.model_id = AdapterOutcome.failure exc) :
    ∃ job,
      AIRouter.chat registry ledger messages model_id provider_type user client_ip
          agent now elapsed_ms adapter
        = (Except.error exc, ledger ++ [job]) ∧
      job.status = Status.error ∧
      job.duration_ms = some elapsed_ms ∧
      job.error_message = exc.msg ∧
      job.input_tokens = none ∧
      job.output_tokens = none ∧
      job.costs = none ∧
      job.agent = agent ∧
      job.user = user ∧
      job.provider = some m.provider ∧
      job.model = some m ∧
      job.client_ip = client_ip ∧
      job.timestamp = now := by
  unfold AIRouter.chat
  rw [hres]
  simp only []
  rw [hbuild]
  simp only []
  rw [hcall]
  exact ⟨_, rfl, rfl, rfl, rfl, rfl, rfl, rfl, rfl, rfl, rfl, rfl, rfl, rfl⟩

/-- Evaluation of `c10_error_frame` with a user and client address
set at creation. -/
theorem c10_error_frame_witness :
    (resolveModel [modelGpt] none none = Except.ok modelGpt ∧
     buildProvider modelGpt.provider = Except.ok builtOpenAI ∧
     adFailApi builtOpenAI [] modelGpt.model_id
       = AdapterOutcome.failure { cls := "RuntimeError", msg := "API error" }) ∧
    (∃ job,
      AIRouter.chat [modelGpt] [] [] none none (some ("acct")) (some ("127.0.0.1"))
          ("core.ai") 42 3 adFailApi
        = (Except.error { cls := "RuntimeError", msg := "API error" }, [] ++ [job]) ∧
      job.status = Status.error ∧
      job.duration_ms = some 3 ∧
      job.error_message = PyExc.msg { cls := "RuntimeError", msg := "API error" } ∧
      job.input_tokens = none ∧
      job.output_tokens = none ∧
      job.costs = none ∧
      job.agent = "core.ai" ∧
      job.user = some ("acct") ∧
      job.provider = some modelGpt.provider ∧
      job.model = some modelGpt ∧
      job.client_ip = some ("127.0.0.1") ∧
      job.timestamp = 42) :=
  ⟨⟨rfl, rfl, rfl⟩,
   c10_error_frame [modelGpt] [] [] none none (some ("acct")) (some ("127.0.0.1"))
     ("core.ai") 42 3 adFailApi modelGpt builtOpenAI
     { cls := "RuntimeError", msg := "API error" } rfl rfl rfl⟩

end PerculaCms
